import Mathlib

/-!
Verification of two C programs on virtual-memory address translation:

* `Pag_Virtual.c`: translates a 32-bit virtual address through a fixed
  8-entry page table (`get_physical_address`), returning a physical
  address or the sentinel `-1` after printing an error message.
* `Memoria_Virtual_PAG.c`: decomposes a 36-bit virtual address into the
  indices of a 3-level page table plus an offset (`decompose_address`)
  and computes an average memory-access time from fixed TLB constants
  (`calculate_memory_access_time`).

Machine integers are modelled as `Nat` with explicit reduction modulo
`2 ^ 32` where the C code uses a 32-bit unsigned parameter; the C `double`
arithmetic of the access-time formula is modelled as exact rationals.
-/

namespace PagVirtual

/-- `PAGE_SIZE` macro: `1 << 12` bytes (4 KB). -/
def PAGE_SIZE : Nat := 1 <<< 12

/-- `VIRTUAL_ADDRESS_BITS` macro: 32-bit virtual addresses. -/
def VIRTUAL_ADDRESS_BITS : Nat := 32

/-- `PHYSICAL_ADDRESS_BITS` macro: physical memory is `2 ^ 21` bytes. -/
def PHYSICAL_ADDRESS_BITS : Nat := 21

/-- One entry of the page table: presence bit, modified bit and page
frame, mirroring the C struct `PageTableEntry`. -/
structure PageTableEntry where
  presence_bit : Nat
  modified_bit : Nat
  page_frame : Nat
  deriving DecidableEq, Repr

/-- The fixed 8-entry page table `page_table[]` from `Pag_Virtual.c`. -/
def page_table : List PageTableEntry :=
  [⟨1, 1, 0⟩, ⟨0, 0, 8⟩, ⟨1, 0, 9⟩, ⟨1, 1, 14⟩,
   ⟨1, 0, 3⟩, ⟨1, 0, 7⟩, ⟨0, 1, 25⟩, ⟨0, 1, 16⟩]

/-- The two failure outcomes of `get_physical_address`. In the C source
each prints its own message and makes the function return `-1`; the
variant records which message was printed. -/
inductive TranslationError where
  | outOfRange
  | pageNotResident
  deriving DecidableEq, Repr

/-- `page_number` local of `get_physical_address`:
`(virtual_address >> 12) & 0xFF`. The reduction modulo `2 ^ 32` models
the `uint32_t` parameter type. -/
def page_number (virtual_address : Nat) : Nat :=
  ((virtual_address % 2 ^ 32) >>> 12) &&& 0xFF

/-- `offset` local of `get_physical_address`:
`virtual_address & (PAGE_SIZE - 1)`. -/
def offset (virtual_address : Nat) : Nat :=
  (virtual_address % 2 ^ 32) &&& (PAGE_SIZE - 1)

/-- `get_physical_address` from `Pag_Virtual.c`: bounds check on the page
number, presence-bit check, then `page_frame * PAGE_SIZE + offset`. -/
def get_physical_address (virtual_address : Nat) : Except TranslationError Nat :=
  if page_number virtual_address ≥ page_table.length then
    .error .outOfRange
  else if (page_table.getD (page_number virtual_address) ⟨0, 0, 0⟩).presence_bit = 0 then
    .error .pageNotResident
  else
    .ok ((page_table.getD (page_number virtual_address) ⟨0, 0, 0⟩).page_frame * PAGE_SIZE
      + offset virtual_address)

/-- The C return value of `get_physical_address` (an `int`): the physical
address on success, the sentinel `-1` on either failure path. -/
def get_physical_address_int (virtual_address : Nat) : Int :=
  match get_physical_address virtual_address with
  | .ok physical_address => (physical_address : Int)
  | .error _ => -1

/-- Observable outcome of one run of `main` in `Pag_Virtual.c`. -/
structure MainResult where
  printed_physical : Option Int
  exit_code : Int
  deriving DecidableEq, Repr

/-- `main` of `Pag_Virtual.c`, modelled on the already-parsed user input:
prints the physical address only when the result is not `-1`, and always
returns exit code 0. -/
def main (virtual_address : Nat) : MainResult :=
  let physical_address := get_physical_address_int virtual_address
  { printed_physical := if physical_address ≠ -1 then some physical_address else none,
    exit_code := 0 }

end PagVirtual

namespace MemoriaVirtualPAG

/-- `PAGE_SIZE` macro: 4 KB pages. -/
def PAGE_SIZE : Nat := 1 <<< 12

/-- `ADDRESS_SIZE` macro: 36-bit virtual addresses. -/
def ADDRESS_SIZE : Nat := 36

/-- `TLB_HIT_TIME` macro (ns), as an exact rational. -/
def TLB_HIT_TIME : ℚ := 8

/-- `MEMORY_ACCESS_TIME` macro (ns), as an exact rational. -/
def MEMORY_ACCESS_TIME : ℚ := 70

/-- `TLB_HIT_RATE` macro (`0.9`), as an exact rational. -/
def TLB_HIT_RATE : ℚ := 0.9

/-- The `VirtualAddress` struct: offset and the three level indices. -/
structure VirtualAddress where
  offset : Nat
  lvl3_index : Nat
  lvl2_index : Nat
  lvl1_index : Nat
  deriving DecidableEq, Repr

/-- `decompose_address` from `Memoria_Virtual_PAG.c`. The reduction
modulo `2 ^ 32` models the `unsigned int` parameter type. -/
def decompose_address (virtual_address : Nat) : VirtualAddress :=
  let va := virtual_address % 2 ^ 32
  { offset := va &&& ((1 <<< 12) - 1),
    lvl3_index := (va >>> 12) &&& 0xFF,
    lvl2_index := (va >>> 20) &&& 0xFF,
    lvl1_index := (va >>> 28) &&& 0xF }

/-- `calculate_memory_access_time` from `Memoria_Virtual_PAG.c`; the C
`double` arithmetic is modelled as exact rational arithmetic. -/
def calculate_memory_access_time : ℚ :=
  let tlb_access_time := TLB_HIT_RATE * TLB_HIT_TIME
  let page_table_access_time := (1 - TLB_HIT_RATE) * (3 * MEMORY_ACCESS_TIME)
  let memory_access_time := MEMORY_ACCESS_TIME
  tlb_access_time + page_table_access_time + memory_access_time

/-- Observable outcome of one run of `main` in `Memoria_Virtual_PAG.c`. -/
structure MainResult where
  printed_lvl1 : Nat
  printed_lvl2 : Nat
  printed_lvl3 : Nat
  printed_offset : Nat
  printed_access_time : ℚ
  exit_code : Int
  deriving DecidableEq, Repr

/-- `main` of `Memoria_Virtual_PAG.c`, modelled on the already-parsed
user input: prints the decomposed fields and the access time, and always
returns exit code 0. -/
def main (virtual_address : Nat) : MainResult :=
  let addr := decompose_address virtual_address
  { printed_lvl1 := addr.lvl1_index,
    printed_lvl2 := addr.lvl2_index,
    printed_lvl3 := addr.lvl3_index,
    printed_offset := addr.offset,
    printed_access_time := calculate_memory_access_time,
    exit_code := 0 }

end MemoriaVirtualPAG

namespace PagVirtual

/-- The page table has exactly 8 entries. -/
theorem page_table_length : page_table.length = 8 := rfl

/-- `offset` in div/mod normal form: the low 12 bits. -/
theorem offset_eq (v : Nat) : offset v = v % 4096 := by
  unfold offset PAGE_SIZE
  rw [show ((1 <<< 12) - 1 : Nat) = 2 ^ 12 - 1 by decide,
    Nat.and_pow_two_sub_one_eq_mod,
    Nat.mod_mod_of_dvd v (pow_dvd_pow 2 (by norm_num : 12 ≤ 32))]
  norm_num

/-- `page_number` in div/mod normal form: bits 12–19. -/
theorem page_number_eq (v : Nat) : page_number v = v / 4096 % 256 := by
  unfold page_number
  rw [show (0xFF : Nat) = 2 ^ 8 - 1 by decide,
    Nat.and_pow_two_sub_one_eq_mod, Nat.shiftRight_eq_div_pow,
    show (2 : Nat) ^ 32 = 2 ^ 12 * 2 ^ 20 by norm_num,
    Nat.mod_mul_right_div_self,
    Nat.mod_mod_of_dvd _ (pow_dvd_pow 2 (by norm_num : 8 ≤ 20))]
  norm_num

/-- The offset is always below the page size. -/
theorem offset_lt (v : Nat) : offset v < 4096 := by
  rw [offset_eq]; omega

/-- The page number is always below 256. -/
theorem page_number_lt (v : Nat) : page_number v < 256 := by
  rw [page_number_eq]; omega

/-- Successful-lookup shape of `get_physical_address`. -/
theorem get_physical_address_ok (va : Nat)
    (hpn : page_number va < page_table.length)
    (hp : (page_table.getD (page_number va) ⟨0, 0, 0⟩).presence_bit ≠ 0) :
    get_physical_address va =
      .ok ((page_table.getD (page_number va) ⟨0, 0, 0⟩).page_frame * PAGE_SIZE
        + offset va) := by
  unfold get_physical_address
  rw [if_neg (Nat.not_le.mpr hpn), if_neg hp]

/-- Any resident in-bounds entry has a page frame at most 14. -/
theorem frame_le_of_resident (pn : Nat) (hpn : pn < 8)
    (hp : (page_table.getD pn ⟨0, 0, 0⟩).presence_bit ≠ 0) :
    (page_table.getD pn ⟨0, 0, 0⟩).page_frame ≤ 14 := by
  interval_cases pn <;> revert hp <;> decide

end PagVirtual

namespace MemoriaVirtualPAG

/-- The `offset` field of `decompose_address`, unfolded. -/
theorem decompose_address_offset (v : Nat) :
    (decompose_address v).offset = (v % 2 ^ 32) &&& ((1 <<< 12) - 1) := rfl

/-- The `lvl3_index` field of `decompose_address`, unfolded. -/
theorem decompose_address_lvl3 (v : Nat) :
    (decompose_address v).lvl3_index = ((v % 2 ^ 32) >>> 12) &&& 0xFF := rfl

/-- The `lvl2_index` field of `decompose_address`, unfolded. -/
theorem decompose_address_lvl2 (v : Nat) :
    (decompose_address v).lvl2_index = ((v % 2 ^ 32) >>> 20) &&& 0xFF := rfl

/-- The `lvl1_index` field of `decompose_address`, unfolded. -/
theorem decompose_address_lvl1 (v : Nat) :
    (decompose_address v).lvl1_index = ((v % 2 ^ 32) >>> 28) &&& 0xF := rfl

/-- `offset` field in div/mod normal form: the low 12 bits. -/
theorem decompose_offset_eq (v : Nat) : (decompose_address v).offset = v % 4096 := by
  rw [decompose_address_offset,
    show ((1 <<< 12) - 1 : Nat) = 2 ^ 12 - 1 by decide,
    Nat.and_pow_two_sub_one_eq_mod,
    Nat.mod_mod_of_dvd v (pow_dvd_pow 2 (by norm_num : 12 ≤ 32))]
  norm_num

/-- `lvl3_index` field in div/mod normal form: bits 12–19. -/
theorem decompose_lvl3_eq (v : Nat) :
    (decompose_address v).lvl3_index = v / 4096 % 256 := by
  rw [decompose_address_lvl3,
    show (0xFF : Nat) = 2 ^ 8 - 1 by decide,
    Nat.and_pow_two_sub_one_eq_mod, Nat.shiftRight_eq_div_pow,
    show (2 : Nat) ^ 32 = 2 ^ 12 * 2 ^ 20 by norm_num,
    Nat.mod_mul_right_div_self,
    Nat.mod_mod_of_dvd _ (pow_dvd_pow 2 (by norm_num : 8 ≤ 20))]
  norm_num

/-- `lvl2_index` field in div/mod normal form: bits 20–27. -/
theorem decompose_lvl2_eq (v : Nat) :
    (decompose_address v).lvl2_index = v / 1048576 % 256 := by
  rw [decompose_address_lvl2,
    show (0xFF : Nat) = 2 ^ 8 - 1 by decide,
    Nat.and_pow_two_sub_one_eq_mod, Nat.shiftRight_eq_div_pow,
    show (2 : Nat) ^ 32 = 2 ^ 20 * 2 ^ 12 by norm_num,
    Nat.mod_mul_right_div_self,
    Nat.mod_mod_of_dvd _ (pow_dvd_pow 2 (by norm_num : 8 ≤ 12))]
  norm_num

/-- `lvl1_index` field in div/mod normal form: bits 28–31. -/
theorem decompose_lvl1_eq (v : Nat) :
    (decompose_address v).lvl1_index = v / 268435456 % 16 := by
  rw [decompose_address_lvl1,
    show (0xF : Nat) = 2 ^ 4 - 1 by decide,
    Nat.and_pow_two_sub_one_eq_mod, Nat.shiftRight_eq_div_pow,
    show (2 : Nat) ^ 32 = 2 ^ 28 * 2 ^ 4 by norm_num,
    Nat.mod_mul_right_div_self,
    Nat.mod_mod_of_dvd _ (dvd_refl _)]
  norm_num

/-- Recombining the four bit fields of a 32-bit value by shifted bitwise
OR gives the value back. -/
theorem reconstruct_bits (w : Nat) (hw : w < 2 ^ 32) :
    (w &&& ((1 <<< 12) - 1)) ||| (((w >>> 12) &&& 0xFF) <<< 12)
      ||| (((w >>> 20) &&& 0xFF) <<< 20) ||| (((w >>> 28) &&& 0xF) <<< 28) = w := by
  rw [show ((1 <<< 12) - 1 : Nat) = 2 ^ 12 - 1 by decide,
    show (0xFF : Nat) = 2 ^ 8 - 1 by decide,
    show (0xF : Nat) = 2 ^ 4 - 1 by decide]
  apply Nat.eq_of_testBit_eq
  intro i
  simp only [Nat.testBit_or, Nat.testBit_and, Nat.testBit_shiftLeft,
    Nat.testBit_shiftRight, Nat.testBit_two_pow_sub_one]
  rcases Nat.lt_or_ge i 12 with h | h
  · simp [h, show ¬(12 ≤ i) by omega, show ¬(20 ≤ i) by omega,
      show ¬(28 ≤ i) by omega]
  rcases Nat.lt_or_ge i 20 with h2 | h2
  · have e : 12 + (i - 12) = i := by omega
    simp [e, show ¬(i < 12) by omega, h, show i - 12 < 8 by omega,
      show ¬(20 ≤ i) by omega, show ¬(28 ≤ i) by omega]
  rcases Nat.lt_or_ge i 28 with h3 | h3
  · have e : 20 + (i - 20) = i := by omega
    simp [e, show ¬(i < 12) by omega, show ¬(i - 12 < 8) by omega, h2,
      show i - 20 < 8 by omega, show ¬(28 ≤ i) by omega]
  rcases Nat.lt_or_ge i 32 with h4 | h4
  · have e : 28 + (i - 28) = i := by omega
    simp [e, show ¬(i < 12) by omega, show ¬(i - 12 < 8) by omega,
      show ¬(i - 20 < 8) by omega, h3, show i - 28 < 4 by omega]
  · have hwi : w < 2 ^ i :=
      lt_of_lt_of_le hw (Nat.pow_le_pow_right (by norm_num) h4)
    simp [show ¬(i < 12) by omega, show ¬(i - 12 < 8) by omega,
      show ¬(i - 20 < 8) by omega, show ¬(i - 28 < 4) by omega,
      Nat.testBit_lt_two_pow hwi]

end MemoriaVirtualPAG

section Claims

open MemoriaVirtualPAG

/-- Claim C1: for every virtual address whose page number
`(input >> 12) & 0xFF` is a valid index into the 8-entry table and whose
entry has presence bit 1, `get_physical_address` returns
`entry.frame * 4096 + (input & 0xFFF)`, and the C `int` return value is
non-negative. -/
theorem claim_C1 (va : Nat) (hva : va < 2 ^ 32)
    (hpn : PagVirtual.page_number va < 8)
    (hp : (PagVirtual.page_table.getD (PagVirtual.page_number va) ⟨0, 0, 0⟩).presence_bit = 1) :
    PagVirtual.get_physical_address va =
        .ok ((PagVirtual.page_table.getD (PagVirtual.page_number va) ⟨0, 0, 0⟩).page_frame * 4096
          + (va &&& 0xFFF)) ∧
      PagVirtual.page_number va = (va >>> 12) &&& 0xFF ∧
      0 ≤ PagVirtual.get_physical_address_int va := by
  have hmod : va % 2 ^ 32 = va := Nat.mod_eq_of_lt hva
  have hof : PagVirtual.offset va = va &&& 0xFFF := by
    rw [PagVirtual.offset_eq, show (0xFFF : Nat) = 2 ^ 12 - 1 by decide,
      Nat.and_pow_two_sub_one_eq_mod]
  have hok : PagVirtual.get_physical_address va =
      .ok ((PagVirtual.page_table.getD (PagVirtual.page_number va) ⟨0, 0, 0⟩).page_frame * 4096
        + (va &&& 0xFFF)) := by
    rw [PagVirtual.get_physical_address_ok va (by rw [PagVirtual.page_table_length]; omega)
      (by rw [hp]; omega), hof]
    rfl
  refine ⟨hok, ?_, ?_⟩
  · unfold PagVirtual.page_number
    rw [hmod]
  · unfold PagVirtual.get_physical_address_int
    rw [hok]
    positivity

/-- Concrete instance of C1: the address `0x123` falls in page 0 (entry
`{1, 1, 0}`) and translates to physical address `0x123`. -/
theorem claim_C1_witness :
    (0x123 : Nat) < 2 ^ 32 ∧ PagVirtual.page_number 0x123 < 8 ∧
      (PagVirtual.page_table.getD (PagVirtual.page_number 0x123) ⟨0, 0, 0⟩).presence_bit = 1 ∧
      PagVirtual.get_physical_address 0x123 =
        .ok ((PagVirtual.page_table.getD (PagVirtual.page_number 0x123) ⟨0, 0, 0⟩).page_frame * 4096
          + (0x123 &&& 0xFFF)) ∧
      PagVirtual.page_number 0x123 = ((0x123 : Nat) >>> 12) &&& 0xFF ∧
      0 ≤ PagVirtual.get_physical_address_int 0x123 :=
  ⟨by norm_num, by decide, by decide,
    claim_C1 0x123 (by norm_num) (by decide) (by decide)⟩

/-- Claim C2: for every virtual address whose page number is in bounds
but whose entry has presence bit 0, `get_physical_address` fails with
`pageNotResident` and the C return value is the sentinel `-1`, so no
physical address is produced. -/
theorem claim_C2 (va : Nat)
    (hpn : PagVirtual.page_number va < 8)
    (hp : (PagVirtual.page_table.getD (PagVirtual.page_number va) ⟨0, 0, 0⟩).presence_bit = 0) :
    PagVirtual.get_physical_address va = .error .pageNotResident ∧
      PagVirtual.get_physical_address_int va = -1 := by
  have hlen : PagVirtual.page_table.length = 8 := PagVirtual.page_table_length
  have he : PagVirtual.get_physical_address va = .error .pageNotResident := by
    unfold PagVirtual.get_physical_address
    rw [if_neg (by omega), if_pos hp]
  exact ⟨he, by simp [PagVirtual.get_physical_address_int, he]⟩

/-- Concrete instance of C2: the address `0x1FFF` falls in page 1 (entry
`{0, 0, 8}`, not resident) and fails with `pageNotResident`. -/
theorem claim_C2_witness :
    PagVirtual.page_number 0x1FFF < 8 ∧
      (PagVirtual.page_table.getD (PagVirtual.page_number 0x1FFF) ⟨0, 0, 0⟩).presence_bit = 0 ∧
      PagVirtual.get_physical_address 0x1FFF = .error .pageNotResident ∧
      PagVirtual.get_physical_address_int 0x1FFF = -1 :=
  ⟨by decide, by decide, (claim_C2 0x1FFF (by decide) (by decide)).1,
    (claim_C2 0x1FFF (by decide) (by decide)).2⟩

/-- Claim C3: for every virtual address whose page number is at least the
table length 8, `get_physical_address` fails with `outOfRange` and the C
return value is the sentinel `-1`, so no physical address is produced. -/
theorem claim_C3 (va : Nat) (hpn : 8 ≤ PagVirtual.page_number va) :
    PagVirtual.get_physical_address va = .error .outOfRange ∧
      PagVirtual.get_physical_address_int va = -1 := by
  have hlen : PagVirtual.page_table.length = 8 := PagVirtual.page_table_length
  have he : PagVirtual.get_physical_address va = .error .outOfRange := by
    unfold PagVirtual.get_physical_address
    rw [if_pos (by omega)]
  exact ⟨he, by simp [PagVirtual.get_physical_address_int, he]⟩

/-- Concrete instance of C3: the address `0x8000` has page number 8 and
fails with `outOfRange`. -/
theorem claim_C3_witness :
    8 ≤ PagVirtual.page_number 0x8000 ∧
      PagVirtual.get_physical_address 0x8000 = .error .outOfRange ∧
      PagVirtual.get_physical_address_int 0x8000 = -1 :=
  ⟨by decide, (claim_C3 0x8000 (by decide)).1, (claim_C3 0x8000 (by decide)).2⟩

/-- Claim C4: for every unsigned 32-bit input, `decompose_address`
returns exactly the four fields `input & 0xFFF`, `(input >> 12) & 0xFF`,
`(input >> 20) & 0xFF` and `(input >> 28) & 0xF`; it is a total function
with no error conditions. -/
theorem claim_C4 (input : Nat) (h : input < 2 ^ 32) :
    decompose_address input =
      { offset := input &&& 0xFFF,
        lvl3_index := (input >>> 12) &&& 0xFF,
        lvl2_index := (input >>> 20) &&& 0xFF,
        lvl1_index := (input >>> 28) &&& 0xF } := by
  have hmod : input % 2 ^ 32 = input := Nat.mod_eq_of_lt h
  simp only [decompose_address, hmod]
  rw [show ((1 <<< 12) - 1 : Nat) = 0xFFF by decide]

/-- Concrete instance of C4 at input `0x12345678`. -/
theorem claim_C4_witness :
    decompose_address 0x12345678 =
      { offset := (0x12345678 : Nat) &&& 0xFFF,
        lvl3_index := ((0x12345678 : Nat) >>> 12) &&& 0xFF,
        lvl2_index := ((0x12345678 : Nat) >>> 20) &&& 0xFF,
        lvl1_index := ((0x12345678 : Nat) >>> 28) &&& 0xF } :=
  claim_C4 0x12345678 (by norm_num)

/-- Claim C5: for every 36-bit input, the fields of `decompose_address`
are within `[0, 4095]`, `[0, 255]`, `[0, 255]` and `[0, 15]`
respectively, and recombining them by shifted bitwise OR yields
`v & 0xFFFFFFFF`: the bits above bit 31 are discarded. -/
theorem claim_C5 (v : Nat) (h : v < 2 ^ 36) :
    (decompose_address v).offset ≤ 4095 ∧
      (decompose_address v).lvl3_index ≤ 255 ∧
      (decompose_address v).lvl2_index ≤ 255 ∧
      (decompose_address v).lvl1_index ≤ 15 ∧
      ((decompose_address v).offset ||| ((decompose_address v).lvl3_index <<< 12)
        ||| ((decompose_address v).lvl2_index <<< 20)
        ||| ((decompose_address v).lvl1_index <<< 28)) = v &&& 0xFFFFFFFF := by
  refine ⟨?_, ?_, ?_, ?_, ?_⟩
  · rw [decompose_offset_eq]; omega
  · rw [decompose_lvl3_eq]; omega
  · rw [decompose_lvl2_eq]; omega
  · rw [decompose_lvl1_eq]; omega
  · have hw : v % 2 ^ 32 < 2 ^ 32 := Nat.mod_lt _ (by norm_num)
    rw [decompose_address_offset, decompose_address_lvl3,
      decompose_address_lvl2, decompose_address_lvl1,
      show (0xFFFFFFFF : Nat) = 2 ^ 32 - 1 by decide,
      Nat.and_pow_two_sub_one_eq_mod]
    exact reconstruct_bits (v % 2 ^ 32) hw

/-- Concrete instance of C5 at the 36-bit input `0xABC123456`: the high
nibble `0xA` is discarded by the decomposition. -/
theorem claim_C5_witness :
    (0xABC123456 : Nat) < 2 ^ 36 ∧
      ((decompose_address 0xABC123456).offset ≤ 4095 ∧
        (decompose_address 0xABC123456).lvl3_index ≤ 255 ∧
        (decompose_address 0xABC123456).lvl2_index ≤ 255 ∧
        (decompose_address 0xABC123456).lvl1_index ≤ 15 ∧
        ((decompose_address 0xABC123456).offset
          ||| ((decompose_address 0xABC123456).lvl3_index <<< 12)
          ||| ((decompose_address 0xABC123456).lvl2_index <<< 20)
          ||| ((decompose_address 0xABC123456).lvl1_index <<< 28))
          = (0xABC123456 : Nat) &&& 0xFFFFFFFF) :=
  ⟨by norm_num, claim_C5 0xABC123456 (by norm_num)⟩

/-- Claim C6: for every 32-bit input, the 32-bit decomposition used by
`get_physical_address` yields `page_number = (v >> 12) & 0xFF` with
`page_number ≤ 255`, and `offset = v & 0xFFF` with `offset ≤ 4095`. -/
theorem claim_C6 (v : Nat) (h : v < 2 ^ 32) :
    PagVirtual.page_number v = (v >>> 12) &&& 0xFF ∧
      PagVirtual.page_number v ≤ 255 ∧
      PagVirtual.offset v = v &&& 0xFFF ∧
      PagVirtual.offset v ≤ 4095 := by
  have hmod : v % 2 ^ 32 = v := Nat.mod_eq_of_lt h
  refine ⟨?_, ?_, ?_, ?_⟩
  · unfold PagVirtual.page_number
    rw [hmod]
  · have := PagVirtual.page_number_lt v
    omega
  · rw [PagVirtual.offset_eq, show (0xFFF : Nat) = 2 ^ 12 - 1 by decide,
      Nat.and_pow_two_sub_one_eq_mod]
  · have := PagVirtual.offset_lt v
    omega

/-- Concrete instance of C6 at input `0xDEADBEEF`. -/
theorem claim_C6_witness :
    (0xDEADBEEF : Nat) < 2 ^ 32 ∧
      (PagVirtual.page_number 0xDEADBEEF = ((0xDEADBEEF : Nat) >>> 12) &&& 0xFF ∧
        PagVirtual.page_number 0xDEADBEEF ≤ 255 ∧
        PagVirtual.offset 0xDEADBEEF = (0xDEADBEEF : Nat) &&& 0xFFF ∧
        PagVirtual.offset 0xDEADBEEF ≤ 4095) :=
  ⟨by norm_num, claim_C6 0xDEADBEEF (by norm_num)⟩

/-- Claim C7: `calculate_memory_access_time` takes no input and always
returns `0.9 * 8 + 0.1 * (3 * 70) + 70 = 98.2` nanoseconds, computed as
`hit_rate * tlb_time + (1 - hit_rate) * (levels * memory_time) +
memory_time` over the fixed constants. -/
theorem claim_C7 :
    calculate_memory_access_time = 98.2 ∧
      calculate_memory_access_time =
        TLB_HIT_RATE * TLB_HIT_TIME
          + (1 - TLB_HIT_RATE) * (3 * MEMORY_ACCESS_TIME) + MEMORY_ACCESS_TIME := by
  constructor
  · unfold calculate_memory_access_time TLB_HIT_RATE TLB_HIT_TIME MEMORY_ACCESS_TIME
    norm_num
  · rfl

/-- Claim C8: both programs' `main` returns exit code 0 on every input,
including the inputs that take the page-in-swap and out-of-bounds error
paths. -/
theorem claim_C8 (input : Nat) :
    (PagVirtual.main input).exit_code = 0 ∧
      (MemoriaVirtualPAG.main input).exit_code = 0 :=
  ⟨rfl, rfl⟩

/-- Claim C9: `get_physical_address` depends only on the low 20 bits of
its input: two 32-bit addresses that agree on bits 0–19 get identical
results, both as the error/success outcome and as the C `int` return
value. -/
theorem claim_C9 (va1 va2 : Nat) (h1 : va1 < 2 ^ 32) (h2 : va2 < 2 ^ 32)
    (h : va1 &&& 0xFFFFF = va2 &&& 0xFFFFF) :
    PagVirtual.get_physical_address va1 = PagVirtual.get_physical_address va2 ∧
      PagVirtual.get_physical_address_int va1 = PagVirtual.get_physical_address_int va2 := by
  have hlow : va1 % 1048576 = va2 % 1048576 := by
    rw [show (0xFFFFF : Nat) = 2 ^ 20 - 1 by decide,
      Nat.and_pow_two_sub_one_eq_mod, Nat.and_pow_two_sub_one_eq_mod] at h
    simpa using h
  have hpn : PagVirtual.page_number va1 = PagVirtual.page_number va2 := by
    simp only [PagVirtual.page_number_eq]
    omega
  have hof : PagVirtual.offset va1 = PagVirtual.offset va2 := by
    simp only [PagVirtual.offset_eq]
    omega
  have hmain : PagVirtual.get_physical_address va1 = PagVirtual.get_physical_address va2 := by
    unfold PagVirtual.get_physical_address
    rw [hpn, hof]
  exact ⟨hmain, by simp [PagVirtual.get_physical_address_int, hmain]⟩

/-- Concrete instance of C9: `0x00012345` and `0xFFF12345` share bits
0–19 and translate identically. -/
theorem claim_C9_witness :
    (0x00012345 : Nat) < 2 ^ 32 ∧ (0xFFF12345 : Nat) < 2 ^ 32 ∧
      (0x00012345 : Nat) &&& 0xFFFFF = (0xFFF12345 : Nat) &&& 0xFFFFF ∧
      (PagVirtual.get_physical_address 0x00012345 =
          PagVirtual.get_physical_address 0xFFF12345 ∧
        PagVirtual.get_physical_address_int 0x00012345 =
          PagVirtual.get_physical_address_int 0xFFF12345) :=
  ⟨by norm_num, by norm_num, by decide,
    claim_C9 0x00012345 0xFFF12345 (by norm_num) (by norm_num) (by decide)⟩

/-- Claim C10: every successful translation is below the physical memory
size `2 ^ 21`; with the fixed table the largest resident frame is 14, so
results lie in `[0, 14 * 4096 + 4095]`, and the C return value of a
success is never the `-1` failure sentinel. -/
theorem claim_C10 (va pa : Nat)
    (h : PagVirtual.get_physical_address va = .ok pa) :
    pa < 2 ^ 21 ∧ pa ≤ 14 * 4096 + 4095 ∧
      PagVirtual.get_physical_address_int va = pa ∧
      PagVirtual.get_physical_address_int va ≠ -1 := by
  have hlen : PagVirtual.page_table.length = 8 := PagVirtual.page_table_length
  have hoff : PagVirtual.offset va < 4096 := PagVirtual.offset_lt va
  have hint : PagVirtual.get_physical_address_int va = pa := by
    simp [PagVirtual.get_physical_address_int, h]
  unfold PagVirtual.get_physical_address at h
  by_cases hge : PagVirtual.page_number va ≥ PagVirtual.page_table.length
  · rw [if_pos hge] at h
    simp at h
  by_cases hp : (PagVirtual.page_table.getD (PagVirtual.page_number va) ⟨0, 0, 0⟩).presence_bit = 0
  · rw [if_neg hge, if_pos hp] at h
    simp at h
  rw [if_neg hge, if_neg hp, Except.ok.injEq] at h
  have hframe : (PagVirtual.page_table.getD (PagVirtual.page_number va) ⟨0, 0, 0⟩).page_frame ≤ 14 :=
    PagVirtual.frame_le_of_resident (PagVirtual.page_number va) (by omega) hp
  have hpage : (2 : Nat) ^ 21 = 2097152 := by norm_num
  have hps : PagVirtual.PAGE_SIZE = 4096 := rfl
  rw [hps] at h
  refine ⟨by omega, by omega, hint, ?_⟩
  rw [hint]
  omega

/-- Concrete instance of C10: the successful translation of `0x123`
yields `0x123`, below `2 ^ 21` and distinct from the sentinel. -/
theorem claim_C10_witness :
    (0x123 : Nat) < 2 ^ 21 ∧ (0x123 : Nat) ≤ 14 * 4096 + 4095 ∧
      PagVirtual.get_physical_address_int 0x123 = (0x123 : Nat) ∧
      PagVirtual.get_physical_address_int 0x123 ≠ -1 :=
  claim_C10 0x123 0x123 (by rfl)

end Claims
